import Mathlib

/-!
Shallow embedding of the Streamlit traffic-sign-detection app (src/app.py)
and proofs of the behavioural properties claimed for it.

External collaborators (OpenCV, the YOLO model, Streamlit widgets) are
modelled at their interface boundary: the decoder is a function from byte
buffers to an optional image, the detection capability is a function field
of the model handle, and every Streamlit widget call is recorded as an
abstract render event.  The control flow, arithmetic and string
formatting of the app itself are translated line by line from src/app.py.
-/

/-- A byte buffer, as read from the uploaded file. -/
abbrev ByteBuf := List Nat

/-- A decoded pixel array.  Pixel contents are abstracted to an opaque
payload; the app never inspects individual pixels itself. -/
structure Image where
  width : Nat
  height : Nat
  data : List Nat
deriving DecidableEq

/-- One detected box, mirroring the fields the app reads from a YOLO
`box`: `box.cls` (a float tensor value), `box.conf`, `box.xyxy`.
Floats are modelled as rationals. -/
structure Detection where
  cls : ℚ
  conf : ℚ
  x1 : ℚ
  y1 : ℚ
  x2 : ℚ
  y2 : ℚ
deriving DecidableEq

/-- Python `int(q)` truncates toward zero; `Int.div` has the same
convention. -/
def pyInt (q : ℚ) : ℤ := Int.tdiv q.num q.den

/-- The loaded model handle: the label table `names` and the external
detection capability `model.predict` (returning `results[0].boxes`).
Both are deterministic functions, as the capability is for a fixed
weight file. -/
structure Model where
  names : ℤ → String
  predictFun : Image → ℚ → List Detection

/-- External `cv2.imdecode` boundary: a codec maps upload bytes to an
image, or to `none` (the Python function returns `None`) when the bytes
are malformed. -/
structure Codec where
  decode : ByteBuf → Option Image

/-- External resize, `cv2.resize(image, (w, h))`: deterministic, fixes
the output dimensions; resampling of the abstract payload is carried
through. -/
def cvResize (img : Image) (w h : Nat) : Image :=
  { width := w, height := h, data := img.data }

/-- External annotation, `results.plot()`: draws the boxes on the resized
image; modelled as carrying the resized image through (the app never
inspects the drawing). -/
def plotResults (img : Image) (_dets : List Detection) : Image := img

/-- The value returned by `create_confidence_bar`: an HTML bar whose
inner div has width `confidence*100`% and the tier colour. -/
structure ConfidenceBar where
  widthPct : ℚ
  color : String
deriving DecidableEq

/-- Line 48-55 of app.py:
color = "green" if confidence > 0.7 else "orange" if confidence > 0.5
else "red", and a bar of width confidence*100 percent. -/
def create_confidence_bar (confidence : ℚ) : ConfidenceBar :=
  { widthPct := confidence * 100,
    color :=
      if confidence > 7/10 then "green"
      else if confidence > 1/2 then "orange"
      else "red" }

/-- One Streamlit widget emission, in page order. -/
inductive RenderEvent where
  | header
  | uploadBox
  | originalImage (img : Image)
  | progress (pct : Nat)
  | annotatedImage (img : Image)
  | panel (idx : Nat) (className : String) (conf : ℚ) (bar : ConfidenceBar)
      (x1 y1 x2 y2 : ℚ)
  | noDetections
  | metric (label : String) (value : String)
  | footer
deriving DecidableEq

/-- The uncaught Python exception raised when the app passes the `None`
returned by `cv2.imdecode` straight into `st.image`. -/
inductive AppError where
  | nullImageRender
deriving DecidableEq

/-- The expander panel rendered for detection number `idx` (0-based) of
the loop body at lines 111-124: header index `idx+1`, the class name
resolved through `model.names[int(class_id)]`, the confidence, the
confidence bar, and the box coordinates. -/
def panelAt (model : Model) (idx : Nat) (d : Detection) : RenderEvent :=
  RenderEvent.panel (idx + 1) (model.names (pyInt d.cls)) d.conf
    (create_confidence_bar d.conf) d.x1 d.y1 d.x2 d.y2

/-- The `for idx, box in enumerate(results.boxes)` loop, with `idx`
threaded explicitly. -/
def renderPanels (model : Model) : Nat → List Detection → List RenderEvent
  | _, [] => []
  | idx, d :: ds => panelAt model idx d :: renderPanels model (idx + 1) ds

/-- Lines 110-126: one expander per detection when there is at least one,
otherwise the single warning notice. -/
def presentDetections (model : Model) (dets : List Detection) : List RenderEvent :=
  if dets.length > 0 then renderPanels model 0 dets
  else [RenderEvent.noDetections]

/-- Line 135: np.mean of the confidences when nonempty, else the literal 0. -/
def avg_conf (dets : List Detection) : ℚ :=
  if dets.length > 0 then ((dets.map Detection.conf).sum) / dets.length else 0

/-- Python `len(set(...))` over the raw class values: the number of
distinct entries of the list. -/
def countDistinct : List ℚ → Nat
  | [] => 0
  | x :: xs => (if x ∈ xs then 0 else 1) + countDistinct xs

/-- Line 138: distinct class count when nonempty, else the literal 0. -/
def unique_classes (dets : List Detection) : Nat :=
  if dets.length > 0 then countDistinct (dets.map Detection.cls) else 0

/-- Renders a count of hundredths of a percent as a two-decimal
percentage string. -/
def pctString (r : ℤ) : String :=
  (if r < 0 then "-" else "")
    ++ toString (r.natAbs / 100) ++ "."
    ++ (if r.natAbs % 100 < 10 then "0" ++ toString (r.natAbs % 100)
        else toString (r.natAbs % 100))
    ++ "%"

/-- Python two-decimal percent formatting, the .2 percent format spec:
the value times 100, rounded to two decimal places, with a percent sign.
Here `round` is round-half-up; Python formatting rounds ties to even,
which differs only at exact ties. -/
def formatPercent2 (q : ℚ) : String :=
  pctString (round (q * 10000))

/-- Lines 131-139: the three summary metrics. -/
def summaryMetrics (dets : List Detection) : List RenderEvent :=
  [RenderEvent.metric "Total Detections" (toString dets.length),
   RenderEvent.metric "Average Confidence" (formatPercent2 (avg_conf dets)),
   RenderEvent.metric "Unique Sign Types" (toString (unique_classes dets))]

/-- Lines 98-99: resize to the fixed 640 by 640 resolution, then invoke
the detection capability at the fixed threshold conf=0.25. -/
def inferAdapter (model : Model) (image : Image) : List Detection :=
  model.predictFun (cvResize image 640 640) (25/100)

/-- Lines 92-95: the synthetic progress loop, emitting progress(1) to
progress(100). -/
def progressEvents : List RenderEvent :=
  (List.range 100).map fun i => RenderEvent.progress (i + 1)

/-- Lines 90-139: everything under the Analyze button: optional progress
animation, inference, annotated image, per-detection panels, summary
metrics.  The `wp` flag keeps or removes the cosmetic progress loop. -/
def analysisEvents (model : Model) (image : Image) (wp : Bool) : List RenderEvent :=
  let dets := inferAdapter model image
  (if wp then progressEvents else [])
    ++ [RenderEvent.annotatedImage (plotResults (cvResize image 640 640) dets)]
    ++ presentDetections model dets
    ++ summaryMetrics dets

/-- The page inputs of one script run: the uploaded file, if any, and
whether the Analyze button registered a press in this run. -/
structure AppInput where
  upload : Option ByteBuf
  analyzePressed : Bool

/-- The observable outcome of one script run: the widget trace and how
many times the detection capability was invoked. -/
structure RunOutput where
  events : List RenderEvent
  predictCalls : Nat
deriving DecidableEq

/-- The body of `main` (lines 57-147) as one script run.  There is no
try/except anywhere in the source: when `cv2.imdecode` returns `None`
the code passes it straight to `st.image`, which raises, so that run
aborts with an uncaught exception. -/
def runMain (codec : Codec) (model : Model) (inp : AppInput) (wp : Bool) :
    Except AppError RunOutput :=
  match inp.upload with
  | none =>
      Except.ok ⟨[RenderEvent.header, RenderEvent.uploadBox, RenderEvent.footer], 0⟩
  | some bytes =>
      match codec.decode bytes with
      | none => Except.error AppError.nullImageRender
      | some image =>
          if inp.analyzePressed then
            Except.ok
              ⟨[RenderEvent.header, RenderEvent.uploadBox,
                  RenderEvent.originalImage image]
                ++ analysisEvents model image wp ++ [RenderEvent.footer], 1⟩
          else
            Except.ok
              ⟨[RenderEvent.header, RenderEvent.uploadBox,
                  RenderEvent.originalImage image, RenderEvent.footer], 0⟩

/-- The widget trace of a run, empty when the run aborted. -/
def runEvents : Except AppError RunOutput → List RenderEvent
  | Except.ok o => o.events
  | Except.error _ => []

/-- How many times a run invoked the detection capability (zero when the
run aborted before reaching it). -/
def predictCallCount : Except AppError RunOutput → Nat
  | Except.ok o => o.predictCalls
  | Except.error _ => 0

/-- The memoisation state behind the `st.cache_resource` decorator on
`load_model`: the cached handle, plus instrumentation counting how often
the underlying expensive load ran. -/
structure CacheState where
  cached : Option Model
  loadCount : Nat

/-- Lines 44-46: `load_model` under `st.cache_resource`.  The external
decorator is modelled by its caching contract: return the cached handle
when present, otherwise run the underlying load once and cache it. -/
def load_model (loadYOLO : Unit → Model) (s : CacheState) : Model × CacheState :=
  match s.cached with
  | some m => (m, s)
  | none =>
      let m := loadYOLO ()
      (m, { cached := some m, loadCount := s.loadCount + 1 })

/-- Recognises a progress-bar emission. -/
def isProgressEvent : RenderEvent → Bool
  | RenderEvent.progress _ => true
  | _ => false

/-- Recognises a per-detection expander panel. -/
def isPanelEvent : RenderEvent → Bool
  | RenderEvent.panel _ _ _ _ _ _ _ _ => true
  | _ => false

/-- Recognises a summary-metric emission. -/
def isMetricEvent : RenderEvent → Bool
  | RenderEvent.metric _ _ => true
  | _ => false

/-- Removes the synthetic progress emissions from a widget trace. -/
def eraseProgress (events : List RenderEvent) : List RenderEvent :=
  events.filter fun e => ! isProgressEvent e

/-- Removes the synthetic progress emissions from a run outcome. -/
def dropProgressRun : Except AppError RunOutput → Except AppError RunOutput :=
  Except.map fun o => ⟨eraseProgress o.events, o.predictCalls⟩

/-- The data-model invariant claimed for every detection: confidence in
the closed unit interval and ordered box corners. -/
def detOK (d : Detection) : Prop :=
  0 ≤ d.conf ∧ d.conf ≤ 1 ∧ d.x1 ≤ d.x2 ∧ d.y1 ≤ d.y2

/-- A concrete decoded image used to instantiate the theorems. -/
def imgW : Image := ⟨640, 480, [3]⟩

/-- A stub model whose capability detects nothing. -/
def modelW : Model := ⟨fun _ => "sign", fun _ _ => []⟩

/-- A stub codec that decodes every byte buffer. -/
def codecW : Codec := ⟨fun _ => some imgW⟩

/-- A codec on which every byte buffer is malformed, as for a truncated
JPEG: `cv2.imdecode` returns `None`. -/
def badCodec : Codec := ⟨fun _ => none⟩

/-- A stub underlying expensive load. -/
def stubLoad : Unit → Model := fun _ => modelW

/-- A concrete well-formed detection. -/
def d8 : Detection := ⟨0, 1, 0, 0, 640, 640⟩

/-- A stub model whose capability always reports the single box `d8`. -/
def model8 : Model := ⟨fun _ => "stop sign", fun _ _ => [d8]⟩

/-- The three fixed detections of the end-to-end scenario: confidences
0.9, 0.6, 0.4 over two distinct classes. -/
def c6d1 : Detection := ⟨0, 9/10, 0, 0, 10, 10⟩

/-- Second scenario detection. -/
def c6d2 : Detection := ⟨0, 6/10, 1, 1, 5, 5⟩

/-- Third scenario detection. -/
def c6d3 : Detection := ⟨1, 4/10, 2, 2, 6, 6⟩

/-- The scenario detection list, in capability production order. -/
def c6dets : List Detection := [c6d1, c6d2, c6d3]

/-- The scenario input image, 640 by 480. -/
def c6img : Image := ⟨640, 480, [7]⟩

/-- The scenario stub capability: two classes, named Stop and Yield. -/
def c6model : Model :=
  ⟨fun i => if i = 0 then "Stop" else "Yield", fun _ _ => c6dets⟩

/-- The scenario codec. -/
def c6codec : Codec := ⟨fun _ => some c6img⟩

/-- Helper: the two-decimal percent rendering of the rational zero. -/
theorem formatPercent2_zero : formatPercent2 0 = "0.00%" := by
  have h : round ((0 : ℚ) * 10000) = 0 := by
    rw [zero_mul, round_zero]
  rw [formatPercent2, h]
  rfl

/-- C1 counterexample: the claim places 0.7 in the high (green) tier and
0.5 in the medium (orange) tier, but the code compares with strict
inequalities, so 0.7 is coloured orange and 0.5 is coloured red. -/
theorem c1_tier_boundary_counterexample :
    ¬ ((create_confidence_bar (7/10)).color = "green"
        ∧ (create_confidence_bar (1/2)).color = "orange") := by
  have h7 : (create_confidence_bar (7/10)).color = "orange" := by
    rw [create_confidence_bar]
    norm_num
  have h5 : (create_confidence_bar (1/2)).color = "red" := by
    rw [create_confidence_bar]
    norm_num
  rw [h7, h5]
  intro h
  exact absurd h.1 (by decide)

/-- C1 (amended): the confidence-tier colouring is a pure function of
the confidence; 0.85 is green, 0.6 orange, 0.3 red, and the boundary
values belong to the lower tier: exactly 0.7 is orange and exactly 0.5
is red (strict comparisons in the source). -/
theorem c1_tier_coloring_strict :
    (create_confidence_bar (85/100)).color = "green"
    ∧ (create_confidence_bar (6/10)).color = "orange"
    ∧ (create_confidence_bar (3/10)).color = "red"
    ∧ (create_confidence_bar (7/10)).color = "orange"
    ∧ (create_confidence_bar (1/2)).color = "red" := by
  refine ⟨?_, ?_, ?_, ?_, ?_⟩ <;> rw [create_confidence_bar] <;> norm_num

/-- C3: on an empty detection list the aggregates are all defined and
zero: the mean confidence is the rational 0, rendered as the metric
string 0.00 percent, and the distinct-class count is 0; being total
functions into ℚ and ℕ they can neither raise nor produce NaN. -/
theorem c3_empty_result_aggregates :
    avg_conf [] = 0
    ∧ unique_classes [] = 0
    ∧ summaryMetrics [] =
        [RenderEvent.metric "Total Detections" "0",
         RenderEvent.metric "Average Confidence" "0.00%",
         RenderEvent.metric "Unique Sign Types" "0"] := by
  have ha : avg_conf [] = 0 := rfl
  refine ⟨ha, rfl, ?_⟩
  rw [summaryMetrics, ha, formatPercent2_zero]
  rfl

/-- C4 counterexample: on malformed upload bytes (every buffer is
malformed for this codec) the run does not end with any caught, visible
message: it aborts with the uncaught exception raised by handing the
null decode result to the image widget. -/
theorem c4_uncaught_decode_counterexample :
    runMain badCodec modelW ⟨some [0], true⟩ true
        = Except.error AppError.nullImageRender
    ∧ (runMain badCodec modelW ⟨some [0], true⟩ true).isOk = false :=
  ⟨rfl, rfl⟩

/-- C4 (amended): the source catches no errors at all; whenever the
decoder returns none for the uploaded bytes, the run propagates an
uncaught exception (the framework outside this code shows it as a
technical traceback) instead of producing a DecodeError message. -/
theorem c4_decode_failure_uncaught (codec : Codec) (model : Model)
    (bytes : ByteBuf) (ap wp : Bool) (h : codec.decode bytes = none) :
    runMain codec model ⟨some bytes, ap⟩ wp
      = Except.error AppError.nullImageRender := by
  simp [runMain, h]

/-- Witness for the amended C4 theorem at a concrete malformed upload. -/
theorem c4_decode_failure_uncaught_witness :
    runMain badCodec modelW ⟨some [1], false⟩ false
      = Except.error AppError.nullImageRender :=
  c4_decode_failure_uncaught badCodec modelW [1] false false rfl

/-- C5: from an empty cache, loading the model twice runs the underlying
expensive load exactly once, the second call returns the identical
cached handle, and leaves the cache state untouched. -/
theorem c5_load_model_memoized (loadYOLO : Unit → Model) (s0 : CacheState)
    (h : s0.cached = none) :
    (load_model loadYOLO (load_model loadYOLO s0).2).1
        = (load_model loadYOLO s0).1
    ∧ (load_model loadYOLO s0).2.loadCount = s0.loadCount + 1
    ∧ (load_model loadYOLO (load_model loadYOLO s0).2).2
        = (load_model loadYOLO s0).2 := by
  simp [load_model, h]

/-- Witness for C5 at a concrete fresh cache and stub load. -/
theorem c5_load_model_memoized_witness :
    (load_model stubLoad (load_model stubLoad ⟨none, 0⟩).2).1
        = (load_model stubLoad ⟨none, 0⟩).1
    ∧ (load_model stubLoad ⟨none, 0⟩).2.loadCount = 0 + 1
    ∧ (load_model stubLoad (load_model stubLoad ⟨none, 0⟩).2).2
        = (load_model stubLoad ⟨none, 0⟩).2 :=
  c5_load_model_memoized stubLoad ⟨none, 0⟩ rfl

/-- C7: the inference adapter first applies the fixed deterministic
resize to 640 by 640 and then invokes the capability at the fixed
threshold 0.25, and being a function it gives identical outputs on
identical inputs; likewise two runs of the whole pipeline on the same
inputs coincide. -/
theorem c7_inference_deterministic (model : Model) :
    (∀ image, inferAdapter model image
        = model.predictFun (cvResize image 640 640) (25/100))
    ∧ (∀ image1 image2, image1 = image2 →
        inferAdapter model image1 = inferAdapter model image2)
    ∧ (∀ codec inp wp,
        runMain codec model inp wp = runMain codec model inp wp) :=
  ⟨fun _ => rfl, fun _ _ h => by rw [h], fun _ _ _ => rfl⟩

/-- Witness for C7 at a concrete model and image. -/
theorem c7_inference_deterministic_witness :
    inferAdapter modelW imgW
        = modelW.predictFun (cvResize imgW 640 640) (25/100)
    ∧ inferAdapter modelW imgW = inferAdapter modelW imgW :=
  ⟨(c7_inference_deterministic modelW).1 imgW,
   (c7_inference_deterministic modelW).2.1 imgW imgW rfl⟩

/-- C10: the detection capability is invoked only in a run where a file
was uploaded and the Analyze button was pressed; a decodable upload
without a press renders exactly the original image (between header and
footer chrome) and invokes nothing. -/
theorem c10_predict_gated (codec : Codec) (model : Model) (inp : AppInput)
    (wp : Bool) :
    (0 < predictCallCount (runMain codec model inp wp) →
        inp.upload.isSome = true ∧ inp.analyzePressed = true)
    ∧ (∀ bytes img, inp.upload = some bytes → codec.decode bytes = some img →
        inp.analyzePressed = false →
        runMain codec model inp wp =
          Except.ok ⟨[RenderEvent.header, RenderEvent.uploadBox,
            RenderEvent.originalImage img, RenderEvent.footer], 0⟩) := by
  obtain ⟨upl, ap⟩ := inp
  constructor
  · intro h
    cases upl with
    | none => simp [runMain, predictCallCount] at h
    | some bytes =>
        cases hd : codec.decode bytes with
        | none => simp [runMain, hd, predictCallCount] at h
        | some img =>
            cases ap with
            | false => simp [runMain, hd, predictCallCount] at h
            | true => exact ⟨rfl, rfl⟩
  · intro bytes img hup hd hap
    simp only at hup hap
    subst hup
    subst hap
    simp [runMain, hd]

/-- Witness for C10: with a press the capability runs (so the gating
hypothesis is satisfiable), and without a press only the original image
is rendered. -/
theorem c10_predict_gated_witness :
    ((⟨some [0], true⟩ : AppInput).upload.isSome = true
      ∧ (⟨some [0], true⟩ : AppInput).analyzePressed = true)
    ∧ runMain codecW modelW ⟨some [0], false⟩ false =
        Except.ok ⟨[RenderEvent.header, RenderEvent.uploadBox,
          RenderEvent.originalImage imgW, RenderEvent.footer], 0⟩ :=
  ⟨(c10_predict_gated codecW modelW ⟨some [0], true⟩ false).1 (by decide),
   (c10_predict_gated codecW modelW ⟨some [0], false⟩ false).2 [0] imgW rfl rfl rfl⟩

/-- Helper: the panel loop renders one event per detection. -/
theorem renderPanels_length (model : Model) (j : Nat) (dets : List Detection) :
    (renderPanels model j dets).length = dets.length := by
  induction dets generalizing j with
  | nil => rfl
  | cons d ds ih => simp [renderPanels, ih]

/-- Helper: the i-th rendered panel comes from the i-th detection, with
the running index threaded through. -/
theorem renderPanels_getElem (model : Model) (dets : List Detection)
    (j i : Nat) :
    (renderPanels model j dets)[i]? = (dets[i]?).map (panelAt model (j + i)) := by
  induction dets generalizing j i with
  | nil => simp [renderPanels]
  | cons d ds ih =>
      cases i with
      | zero => simp [renderPanels]
      | succ k =>
          have hk : j + (k + 1) = (j + 1) + k := by omega
          simp [renderPanels, hk, ih (j + 1) k]

/-- C2: the presenter renders exactly one panel per detection, in
capability production order (the i-th panel is built from the i-th
detection), and renders the single no-detections notice exactly on the
empty result. -/
theorem c2_presenter_one_panel_per_detection (model : Model)
    (dets : List Detection) :
    (dets ≠ [] →
      (presentDetections model dets).length = dets.length
      ∧ ∀ i : Nat, (presentDetections model dets)[i]?
          = (dets[i]?).map (panelAt model i))
    ∧ (dets = [] →
        presentDetections model dets = [RenderEvent.noDetections]) := by
  constructor
  · intro hne
    have hlen : dets.length > 0 := List.length_pos.mpr hne
    constructor
    · rw [presentDetections, if_pos hlen, renderPanels_length]
    · intro i
      rw [presentDetections, if_pos hlen]
      simpa using renderPanels_getElem model dets 0 i
  · intro he
    subst he
    rfl

/-- Witness for C2 at a one-detection result and at the empty result. -/
theorem c2_presenter_one_panel_per_detection_witness :
    (presentDetections modelW [d8]).length = 1
    ∧ (presentDetections modelW [d8])[0]?
        = ((([d8] : List Detection))[0]?).map (panelAt modelW 0)
    ∧ presentDetections modelW [] = [RenderEvent.noDetections] :=
  ⟨((c2_presenter_one_panel_per_detection modelW [d8]).1
      (List.cons_ne_nil d8 [])).1,
   ((c2_presenter_one_panel_per_detection modelW [d8]).1
      (List.cons_ne_nil d8 [])).2 0,
   (c2_presenter_one_panel_per_detection modelW []).2 rfl⟩

/-- Helper: erasing progress distributes over trace concatenation. -/
theorem eraseProgress_append (l1 l2 : List RenderEvent) :
    eraseProgress (l1 ++ l2) = eraseProgress l1 ++ eraseProgress l2 := by
  rw [eraseProgress, eraseProgress, eraseProgress, List.filter_append]

/-- Helper: the synthetic progress loop contributes nothing but progress
events. -/
theorem eraseProgress_progressEvents : eraseProgress progressEvents = [] := by
  rw [eraseProgress, List.filter_eq_nil_iff]
  intro a ha
  rw [progressEvents, List.mem_map] at ha
  obtain ⟨i, _, rfl⟩ := ha
  simp [isProgressEvent]

/-- Helper: the panel loop never emits a progress event. -/
theorem renderPanels_no_progress (model : Model) (j : Nat)
    (dets : List Detection) :
    ∀ a ∈ renderPanels model j dets, isProgressEvent a = false := by
  induction dets generalizing j with
  | nil =>
      intro a ha
      simp [renderPanels] at ha
  | cons d ds ih =>
      intro a ha
      rw [renderPanels, List.mem_cons] at ha
      rcases ha with rfl | ha
      · rfl
      · exact ih (j + 1) a ha

/-- Helper: detection panels are untouched by erasing progress. -/
theorem eraseProgress_renderPanels (model : Model) (j : Nat)
    (dets : List Detection) :
    eraseProgress (renderPanels model j dets) = renderPanels model j dets := by
  rw [eraseProgress, List.filter_eq_self]
  intro a ha
  simp [renderPanels_no_progress model j dets a ha]

/-- Helper: the presenter output is untouched by erasing progress. -/
theorem eraseProgress_presentDetections (model : Model)
    (dets : List Detection) :
    eraseProgress (presentDetections model dets)
      = presentDetections model dets := by
  rw [presentDetections]
  split
  · exact eraseProgress_renderPanels model 0 dets
  · rfl

/-- Helper: the summary metrics are untouched by erasing progress. -/
theorem eraseProgress_summaryMetrics (dets : List Detection) :
    eraseProgress (summaryMetrics dets) = summaryMetrics dets := rfl

/-- C9: the progress loop is purely cosmetic: a run with the loop
removed equals the run with the loop, minus its progress emissions; all
decode, inference, presentation and aggregate outputs coincide. -/
theorem c9_progress_removal_equivalent (codec : Codec) (model : Model)
    (inp : AppInput) :
    runMain codec model inp false
      = dropProgressRun (runMain codec model inp true) := by
  obtain ⟨upl, ap⟩ := inp
  cases upl with
  | none => rfl
  | some bytes =>
      cases hd : codec.decode bytes with
      | none => simp [runMain, hd, dropProgressRun, Except.map]
      | some image =>
          cases ap with
          | false =>
              simp only [runMain, hd, dropProgressRun, Except.map]
              rfl
          | true =>
              simp only [runMain, hd, dropProgressRun, Except.map,
                Bool.true_eq_false, if_true]
              refine congrArg Except.ok ?_
              refine congrArg (fun ev => RunOutput.mk ev 1) ?_
              rw [analysisEvents, analysisEvents]
              simp only [eraseProgress_append, eraseProgress_progressEvents,
                eraseProgress_presentDetections, eraseProgress_summaryMetrics,
                if_true, if_false]
              rfl

/-- Helper: a panel emitted by the panel loop carries the confidence and
box coordinates of one of the detections it was given. -/
theorem renderPanels_panel_mem (model : Model) (j : Nat)
    (dets : List Detection) (idx : Nat) (cn : String) (conf : ℚ)
    (bar : ConfidenceBar) (x1 y1 x2 y2 : ℚ)
    (hmem : RenderEvent.panel idx cn conf bar x1 y1 x2 y2
        ∈ renderPanels model j dets) :
    ∃ d ∈ dets, conf = d.conf ∧ x1 = d.x1 ∧ y1 = d.y1 ∧ x2 = d.x2
        ∧ y2 = d.y2 := by
  induction dets generalizing j with
  | nil => simp [renderPanels] at hmem
  | cons d ds ih =>
      rw [renderPanels, List.mem_cons] at hmem
      rcases hmem with h | h
      · rw [panelAt] at h
        injection h with h1 h2 h3 h4 h5 h6 h7 h8
        exact ⟨d, List.mem_cons_self d ds, h3, h5, h6, h7, h8⟩
      · obtain ⟨d', hd', hp⟩ := ih (j + 1) h
        exact ⟨d', List.mem_cons_of_mem d hd', hp⟩

/-- Helper: every panel in the analysis section comes from the panel
loop over the detections produced by the adapter. -/
theorem panel_mem_analysisEvents (model : Model) (image : Image) (wp : Bool)
    (idx : Nat) (cn : String) (conf : ℚ) (bar : ConfidenceBar)
    (x1 y1 x2 y2 : ℚ)
    (h : RenderEvent.panel idx cn conf bar x1 y1 x2 y2
        ∈ analysisEvents model image wp) :
    RenderEvent.panel idx cn conf bar x1 y1 x2 y2
      ∈ renderPanels model 0 (inferAdapter model image) := by
  rw [analysisEvents] at h
  simp only [List.mem_append, List.mem_cons, List.not_mem_nil] at h
  rcases h with ((hp | ha) | hpd) | hm
  · cases wp with
    | false => simp at hp
    | true =>
        rw [if_pos rfl, progressEvents, List.mem_map] at hp
        obtain ⟨i, _, hi⟩ := hp
        exact absurd hi (by simp)
  · rcases ha with ha | ha
    · exact absurd ha (by simp)
    · simp at ha
  · rw [presentDetections] at hpd
    split at hpd
    · exact hpd
    · rw [List.mem_singleton] at hpd
      exact absurd hpd (by simp)
  · rw [summaryMetrics] at hm
    simp at hm

/-- C8: assuming the external capability honours its contract (every
reported detection has confidence in the unit interval and ordered box
corners), every panel the pipeline presents, on any input, shows a
confidence in the unit interval and box coordinates with x1 at most x2
and y1 at most y2. -/
theorem c8_presented_detection_invariant (codec : Codec) (model : Model)
    (hcap : ∀ img thr, ∀ d ∈ model.predictFun img thr, detOK d)
    (inp : AppInput) (wp : Bool) (idx : Nat) (cn : String) (conf : ℚ)
    (bar : ConfidenceBar) (x1 y1 x2 y2 : ℚ)
    (hmem : RenderEvent.panel idx cn conf bar x1 y1 x2 y2
        ∈ runEvents (runMain codec model inp wp)) :
    0 ≤ conf ∧ conf ≤ 1 ∧ x1 ≤ x2 ∧ y1 ≤ y2 := by
  obtain ⟨upl, ap⟩ := inp
  cases upl with
  | none => simp [runMain, runEvents] at hmem
  | some bytes =>
      cases hd : codec.decode bytes with
      | none => simp [runMain, hd, runEvents] at hmem
      | some image =>
          cases ap with
          | false => simp [runMain, hd, runEvents] at hmem
          | true =>
              simp [runMain, hd, runEvents, List.mem_append] at hmem
              obtain ⟨d, hd', hconf, hx1, hy1, hx2, hy2⟩ :=
                renderPanels_panel_mem model 0 (inferAdapter model image)
                  idx cn conf bar x1 y1 x2 y2
                  (panel_mem_analysisEvents model image wp idx cn conf bar
                    x1 y1 x2 y2 hmem)
              obtain ⟨h0, h1, hx, hy⟩ :=
                hcap (cvResize image 640 640) (25/100) d hd'
              rw [hconf, hx1, hy1, hx2, hy2]
              exact ⟨h0, h1, hx, hy⟩

/-- Witness for C8: a concrete run over a contract-honouring stub
capability presents a panel, and its values satisfy the invariant. -/
theorem c8_presented_detection_invariant_witness :
    (0 : ℚ) ≤ 1 ∧ (1 : ℚ) ≤ 1 ∧ (0 : ℚ) ≤ 640 ∧ (0 : ℚ) ≤ 640 :=
  c8_presented_detection_invariant codecW model8
    (by
      intro img thr d hd
      simp [model8] at hd
      subst hd
      exact ⟨by norm_num [d8], by norm_num [d8], by norm_num [d8],
        by norm_num [d8]⟩)
    ⟨some [0], true⟩ false 1 "stop sign" 1 (create_confidence_bar 1) 0 0 640 640
    (by
      simp [runMain, runEvents, codecW, analysisEvents, inferAdapter, model8,
        presentDetections, renderPanels, panelAt, d8, List.mem_append])

/-- Helper: the mean confidence of the scenario detections. -/
theorem c6_avg : avg_conf c6dets = 19/30 := by
  rw [avg_conf]
  norm_num [c6dets, c6d1, c6d2, c6d3]

/-- Helper: rounding the scenario mean to hundredths of a percent. -/
theorem c6_round : round ((19/30 : ℚ) * 10000) = 6333 := by
  rw [round_eq]
  rw [show (19/30 : ℚ) * 10000 + 1/2 = 38003/6 by norm_num]
  rw [Int.floor_eq_iff]
  constructor <;> norm_num

/-- Helper: the scenario mean confidence renders as 63.33 percent. -/
theorem c6_fmt : formatPercent2 (avg_conf c6dets) = "63.33%" := by
  rw [c6_avg, formatPercent2, c6_round]
  rfl

/-- Helper: the scenario detections cover two distinct classes. -/
theorem c6_unique : unique_classes c6dets = 2 := by
  rw [unique_classes]
  norm_num [c6dets, c6d1, c6d2, c6d3, countDistinct]

/-- C6: end to end over the scenario stub capability (three fixed
detections with confidences 0.9, 0.6, 0.4 over two classes): the run
presents exactly three panels, in production order, and the summary
metrics read Total Detections 3, Average Confidence 63.33 percent,
Unique Sign Types 2. -/
theorem c6_end_to_end_scenario :
    (runEvents (runMain c6codec c6model ⟨some [1], true⟩ true)).filter
        isPanelEvent
      = [RenderEvent.panel 1 "Stop" (9/10) ⟨90, "green"⟩ 0 0 10 10,
         RenderEvent.panel 2 "Stop" (6/10) ⟨60, "orange"⟩ 1 1 5 5,
         RenderEvent.panel 3 "Yield" (4/10) ⟨40, "red"⟩ 2 2 6 6]
    ∧ (runEvents (runMain c6codec c6model ⟨some [1], true⟩ true)).filter
        isMetricEvent
      = [RenderEvent.metric "Total Detections" "3",
         RenderEvent.metric "Average Confidence" "63.33%",
         RenderEvent.metric "Unique Sign Types" "2"] := by
  have hpanels :
      (runEvents (runMain c6codec c6model ⟨some [1], true⟩ true)).filter
          isPanelEvent
        = [panelAt c6model 0 c6d1, panelAt c6model 1 c6d2,
           panelAt c6model 2 c6d3] := by
    rfl
  have hmet :
      (runEvents (runMain c6codec c6model ⟨some [1], true⟩ true)).filter
          isMetricEvent
        = summaryMetrics c6dets := by
    rfl
  have hp1 : panelAt c6model 0 c6d1
      = RenderEvent.panel 1 "Stop" (9/10) ⟨90, "green"⟩ 0 0 10 10 := by
    rw [panelAt]
    norm_num [c6model, c6d1, pyInt, create_confidence_bar]
  have hp2 : panelAt c6model 1 c6d2
      = RenderEvent.panel 2 "Stop" (6/10) ⟨60, "orange"⟩ 1 1 5 5 := by
    rw [panelAt]
    norm_num [c6model, c6d2, pyInt, create_confidence_bar]
  have hp3 : panelAt c6model 2 c6d3
      = RenderEvent.panel 3 "Yield" (4/10) ⟨40, "red"⟩ 2 2 6 6 := by
    rw [panelAt]
    norm_num [c6model, c6d3, pyInt, create_confidence_bar]
  refine ⟨?_, ?_⟩
  · rw [hpanels, hp1, hp2, hp3]
  · rw [hmet, summaryMetrics, c6_fmt, c6_unique]
    rfl
